import Mathlib

/-!
Shallow embedding of `src/MT4Connector/mt4_api/MT4Manager.h`, the C++ adapter
over the MT4 Manager SDK, together with proofs of the specification claims.

Modelling conventions:
* C++ `double` fields are modelled as `ℚ`; `time_t` and `int` as `Int`.
* The SDK (`CManagerInterface`) is an external peer: each adapter operation
  takes the SDK responses it would receive as explicit arguments.
* The adapter's private fields (`m_manager != NULL`, `m_connected`,
  `m_logged_in`, `m_server`, `m_login`, `m_last_error`) form `ManagerState`.
* An operation that submits a `TradeTransInfo` to `TradeTransaction` returns
  the submitted descriptor as `some d`; `none` means no submission happened.
-/

/-- Modelled from the spec: the SDK success code (`RET_OK`); its numeric value
lives in `MT4ManagerAPI.h`, which is not under `src/`. Only comparisons with it
matter to the adapter. -/
def RET_OK : Int := 0

/-- Modelled from the spec: trade-command enumerators from the missing SDK
header; standard MT4 wire values. The adapter never branches on them. -/
def OP_BUY : Int := 0

def OP_SELL : Int := 1

def OP_BUY_LIMIT : Int := 2

def OP_SELL_LIMIT : Int := 3

def OP_BUY_STOP : Int := 4

def OP_SELL_STOP : Int := 5

def OP_BALANCE : Int := 6

def OP_CREDIT : Int := 7

/-- Modelled from the spec: transaction-type enumerators from the missing SDK
header ("broker-side open/close/modify"); distinct placeholder values, the
adapter only stores them into the descriptor. -/
def TT_BR_ORDER_OPEN : Int := 64

def TT_BR_ORDER_CLOSE : Int := 65

def TT_BR_ORDER_MODIFY : Int := 66

/-- Modelled from the spec: capacity of the descriptor symbol field
(`sizeof(trade.symbol)` in the missing header). -/
def symbolFieldSize : Nat := 12

/-- Modelled from the spec: capacity of the descriptor comment field. -/
def commentFieldSize : Nat := 32

/-- Raw SDK user record (the fields the wrapper reads). -/
structure UserRecord where
  login : Int
  group : String
  name : String
  email : String
  balance : ℚ
  credit : ℚ
  regdate : Int
  lastdate : Int
  leverage : Int
deriving Repr, DecidableEq

/-- Raw SDK symbol configuration record. -/
structure ConSymbol where
  symbol : String
  description : String
  currency : String
  digits : Int
  point : ℚ
  spread : Int
  contract_size : ℚ
  tick_value : ℚ
  tick_size : ℚ
deriving Repr, DecidableEq

/-- Raw SDK live-quote record. -/
structure SymbolInfo where
  bid : ℚ
  ask : ℚ
  lasttime : Int
deriving Repr, DecidableEq

/-- Raw SDK trade record (the fields the wrapper reads). -/
structure TradeRecord where
  order : Int
  login : Int
  symbol : String
  cmd : Int
  volume : Int
  open_price : ℚ
  close_price : ℚ
  sl : ℚ
  tp : ℚ
  open_time : Int
  close_time : Int
  profit : ℚ
  commission : ℚ
  storage : ℚ
  comment : String
deriving Repr, DecidableEq

/-- `MT4Account` wraps a value copy of a `UserRecord`. -/
structure MT4Account where
  user : UserRecord
deriving Repr, DecidableEq

def MT4Account.getLogin (a : MT4Account) : Int := a.user.login

def MT4Account.getBalance (a : MT4Account) : ℚ := a.user.balance

/-- `MT4Symbol` wraps a `ConSymbol` plus an optional `SymbolInfo` slice. -/
structure MT4Symbol where
  symbol : ConSymbol
  info : SymbolInfo
  has_info : Bool
deriving Repr, DecidableEq

/-- The one-argument C++ constructor: `has_info = false`, `info` left
default-initialized (its getters are guarded by `has_info`). -/
def MT4Symbol.mkPlain (cs : ConSymbol) : MT4Symbol :=
  { symbol := cs, info := { bid := 0, ask := 0, lasttime := 0 }, has_info := false }

/-- The two-argument C++ constructor: `has_info = true`. -/
def MT4Symbol.mkWithInfo (cs : ConSymbol) (si : SymbolInfo) : MT4Symbol :=
  { symbol := cs, info := si, has_info := true }

def MT4Symbol.hasCurrentInfo (s : MT4Symbol) : Bool := s.has_info

def MT4Symbol.getBid (s : MT4Symbol) : ℚ := if s.has_info then s.info.bid else 0

def MT4Symbol.getAsk (s : MT4Symbol) : ℚ := if s.has_info then s.info.ask else 0

/-- `MT4Trade` wraps a value copy of a `TradeRecord`. -/
structure MT4Trade where
  trade : TradeRecord
deriving Repr, DecidableEq

def MT4Trade.getTicket (t : MT4Trade) : Int := t.trade.order

def MT4Trade.getCloseTime (t : MT4Trade) : Int := t.trade.close_time

/-- `bool isOpen() const \x7b return trade.close_time == 0; \x7d` -/
def MT4Trade.isOpen (t : MT4Trade) : Bool := t.trade.close_time == 0

/-- The adapter's private session fields. `valid` is `m_manager != NULL`
(fixed after construction until destruction). -/
structure ManagerState where
  valid : Bool
  connected : Bool
  logged_in : Bool
  server : String
  login : Int
  last_error : String
deriving Repr, DecidableEq

/-- The `MT4Manager` constructor: flags cleared, empty strings, login 0;
`valid` records whether the factory produced an interface. -/
def MT4Manager.init (valid : Bool) : ManagerState :=
  { valid := valid, connected := false, logged_in := false,
    server := "", login := 0, last_error := "" }

def MT4Manager.isValid (st : ManagerState) : Bool := st.valid

def MT4Manager.getLastError (st : ManagerState) : String := st.last_error

/-- `isConnected`: own flag AND a fresh SDK poll (`m_manager->IsConnected()`),
with the null-manager guard. -/
def MT4Manager.isConnected (st : ManagerState) (sdkIsConnected : Bool) : Bool :=
  st.connected && (if st.valid then sdkIsConnected else false)

/-- `isLoggedIn` reads the adapter flag only. -/
def MT4Manager.isLoggedIn (st : ManagerState) : Bool := st.logged_in

/-- `connect`: guard on `isValid`, then the SDK `Connect` result decides;
success records the server label. `errText` is the SDK `ErrorDescription`. -/
def MT4Manager.connect (st : ManagerState) (server : String) (sdkResult : Int)
    (errText : Int → String) : ManagerState × Bool :=
  if !(MT4Manager.isValid st) then
    ({ st with last_error := "Manager interface not initialized" }, false)
  else if sdkResult ≠ RET_OK then
    ({ st with last_error := errText sdkResult }, false)
  else
    ({ st with connected := true, server := server }, true)

/-- `login`: guard on `isValid && m_connected`, then the SDK `Login` result;
success records the login. The password goes only to the SDK. -/
def MT4Manager.login (st : ManagerState) (loginId : Int) (sdkResult : Int)
    (errText : Int → String) : ManagerState × Bool :=
  if !(MT4Manager.isValid st && st.connected) then
    ({ st with last_error := "Not connected to server" }, false)
  else if sdkResult ≠ RET_OK then
    ({ st with last_error := errText sdkResult }, false)
  else
    ({ st with logged_in := true, login := loginId }, true)

/-- `disconnect`: only acts when valid and connected; clears both flags. -/
def MT4Manager.disconnect (st : ManagerState) : ManagerState :=
  if MT4Manager.isValid st && st.connected then
    { st with connected := false, logged_in := false }
  else st

/-- `getAccounts`: guard on `isValid && m_logged_in` (no error message is
written on that path), then marshal the SDK buffer (`none` models a NULL
`UsersRequest` result) into value-copy `MT4Account`s. -/
def MT4Manager.getAccounts (st : ManagerState) (sdkUsers : Option (List UserRecord)) :
    ManagerState × List MT4Account :=
  if !(MT4Manager.isValid st && st.logged_in) then (st, [])
  else
    match sdkUsers with
    | none => (st, [])
    | some us => (st, us.map MT4Account.mk)

/-- `getSymbol`: primary `SymbolGet` failure sets the error and returns NULL;
otherwise the secondary `SymbolInfoGet` result decides which constructor runs. -/
def MT4Manager.getSymbol (st : ManagerState) (sdkSymbolGet : Int × ConSymbol)
    (sdkSymbolInfoGet : Int × SymbolInfo) (errText : Int → String) :
    ManagerState × Option MT4Symbol :=
  if !(MT4Manager.isValid st && st.logged_in) then (st, none)
  else if sdkSymbolGet.1 ≠ RET_OK then
    ({ st with last_error := errText sdkSymbolGet.1 }, none)
  else if sdkSymbolInfoGet.1 = RET_OK then
    (st, some (MT4Symbol.mkWithInfo sdkSymbolGet.2 sdkSymbolInfoGet.2))
  else
    (st, some (MT4Symbol.mkPlain sdkSymbolGet.2))

/-- The `TradeTransInfo` descriptor fields the wrapper writes. -/
structure TradeTransInfo where
  type : Int
  cmd : Int
  orderby : Int
  order : Int
  symbol : String
  volume : Int
  price : ℚ
  sl : ℚ
  tp : ℚ
  comment : String
deriving Repr, DecidableEq

/-- `TradeTransInfo trade = \x7b0\x7d;` -/
def TradeTransInfo.zero : TradeTransInfo :=
  { type := 0, cmd := 0, orderby := 0, order := 0, symbol := "", volume := 0,
    price := 0, sl := 0, tp := 0, comment := "" }

/-- The C cast `(int)(volume * 100)`: truncation toward zero of a real value. -/
def cIntOfRat (q : ℚ) : Int := if 0 ≤ q then Int.floor q else Int.ceil q

/-- The descriptor built by `openTrade` before submission. `strncpy` bounds are
modelled by `take`; the `if (comment && *comment)` guard is a no-op on the
empty string, so the unconditional `take` is equivalent. -/
def MT4Manager.buildOpenDescriptor (loginId : Int) (symbol : String) (cmd : Int)
    (volume price sl tp : ℚ) (comment : String) : TradeTransInfo :=
  { TradeTransInfo.zero with
    type := TT_BR_ORDER_OPEN
    cmd := cmd
    orderby := loginId
    symbol := String.mk (symbol.toList.take (symbolFieldSize - 1))
    volume := cIntOfRat (volume * 100)
    price := price
    sl := sl
    tp := tp
    comment := String.mk (comment.toList.take (commentFieldSize - 1)) }

/-- The loop body of the identification pass: `newest_time` and `order_ticket`
are the accumulator; the update fires on `open_time > newest_time` (strict). -/
def identStep (acc : Int × Int) (t : TradeRecord) : Int × Int :=
  if t.open_time > acc.1 then (t.open_time, t.order) else acc

/-- The identification pass over the fetched trades, starting from
`newest_time = 0`, `order_ticket = 0`. -/
def findNewestTicket (trades : List TradeRecord) : Int :=
  (trades.foldl identStep (0, 0)).2

/-- `openTrade`. Arguments after `comment` are the SDK responses: the
`TradeTransaction` result, the `TradesGetByLogin` buffer (`none` = NULL), and
`ErrorDescription`. Result: new state, submitted descriptor (if any), ticket. -/
def MT4Manager.openTrade (st : ManagerState) (loginId : Int) (symbol : String)
    (cmd : Int) (volume price sl tp : ℚ) (comment : String)
    (sdkTransResult : Int) (sdkTradesByLogin : Option (List TradeRecord))
    (errText : Int → String) : ManagerState × Option TradeTransInfo × Int :=
  if !(MT4Manager.isValid st && st.logged_in) then
    ({ st with last_error := "Not connected or not logged in" }, none, 0)
  else
    let d := MT4Manager.buildOpenDescriptor loginId symbol cmd volume price sl tp comment
    if sdkTransResult ≠ RET_OK then
      ({ st with last_error := errText sdkTransResult }, some d, 0)
    else
      match sdkTradesByLogin with
      | none => (st, some d, 0)
      | some ts => (st, some d, findNewestTicket ts)

/-- The descriptor built by `closeTrade`: zero-initialized, close type, ticket;
the price is copied only when strictly positive. -/
def MT4Manager.buildCloseDescriptor (ticket : Int) (price : ℚ) : TradeTransInfo :=
  { TradeTransInfo.zero with
    type := TT_BR_ORDER_CLOSE
    order := ticket
    price := if price > 0 then price else 0 }

/-- `closeTrade`: state guard, build, submit, map the SDK result to a Bool. -/
def MT4Manager.closeTrade (st : ManagerState) (ticket : Int) (price : ℚ)
    (sdkTransResult : Int) (errText : Int → String) :
    ManagerState × Option TradeTransInfo × Bool :=
  if !(MT4Manager.isValid st && st.logged_in) then
    ({ st with last_error := "Not connected or not logged in" }, none, false)
  else
    let d := MT4Manager.buildCloseDescriptor ticket price
    if sdkTransResult ≠ RET_OK then
      ({ st with last_error := errText sdkTransResult }, some d, false)
    else (st, some d, true)

/-- A session-lifecycle event together with the SDK responses it received:
result code and, for failures, the description `ErrorDescription` produced. -/
inductive SessionEvent where
  | connectEv (server : String) (sdkResult : Int) (desc : String)
  | loginEv (loginId : Int) (sdkResult : Int) (desc : String)
  | disconnectEv
deriving Repr, DecidableEq

/-- Apply one session event to the adapter state. -/
def SessionEvent.apply (st : ManagerState) : SessionEvent → ManagerState
  | .connectEv server res desc => (MT4Manager.connect st server res (fun _ => desc)).1
  | .loginEv loginId res desc => (MT4Manager.login st loginId res (fun _ => desc)).1
  | .disconnectEv => MT4Manager.disconnect st

/-- Run a freshly constructed adapter through a sequence of session events. -/
def runSession (valid : Bool) (evs : List SessionEvent) : ManagerState :=
  evs.foldl SessionEvent.apply (MT4Manager.init valid)

/-- Session invariant: logged-in implies connected, connected implies valid. -/
def SessionInv (st : ManagerState) : Prop :=
  (st.logged_in = true → st.connected = true) ∧ (st.connected = true → st.valid = true)

theorem sessionInv_init (valid : Bool) : SessionInv (MT4Manager.init valid) := by
  constructor <;> intro h <;> simp [MT4Manager.init] at h

theorem sessionInv_apply (st : ManagerState) (ev : SessionEvent)
    (h : SessionInv st) : SessionInv (SessionEvent.apply st ev) := by
  obtain ⟨hlc, hcv⟩ := h
  cases ev with
  | connectEv server res desc =>
    by_cases hv : st.valid = true
    · by_cases hres : res = RET_OK
      · have heq : SessionEvent.apply st (SessionEvent.connectEv server res desc) =
            { st with connected := true, server := server } := by
          simp [SessionEvent.apply, MT4Manager.connect, MT4Manager.isValid, hv, hres]
        rw [heq]
        exact ⟨fun _ => rfl, fun _ => hv⟩
      · have heq : SessionEvent.apply st (SessionEvent.connectEv server res desc) =
            { st with last_error := (fun _ => desc) res } := by
          simp [SessionEvent.apply, MT4Manager.connect, MT4Manager.isValid, hv, hres]
        rw [heq]
        exact ⟨hlc, hcv⟩
    · have hv2 : st.valid = false := by
        cases hval : st.valid
        · rfl
        · exact absurd hval hv
      have heq : SessionEvent.apply st (SessionEvent.connectEv server res desc) =
          { st with last_error := "Manager interface not initialized" } := by
        simp [SessionEvent.apply, MT4Manager.connect, MT4Manager.isValid, hv2]
      rw [heq]
      exact ⟨hlc, hcv⟩
  | loginEv loginId res desc =>
    by_cases hg : (st.valid && st.connected) = true
    · by_cases hres : res = RET_OK
      · have heq : SessionEvent.apply st (SessionEvent.loginEv loginId res desc) =
            { st with logged_in := true, login := loginId } := by
          simp [SessionEvent.apply, MT4Manager.login, MT4Manager.isValid, hg, hres]
        rw [heq]
        exact ⟨fun _ => (Bool.and_eq_true _ _ |>.mp hg).2, fun _ => (Bool.and_eq_true _ _ |>.mp hg).1⟩
      · have heq : SessionEvent.apply st (SessionEvent.loginEv loginId res desc) =
            { st with last_error := (fun _ => desc) res } := by
          simp [SessionEvent.apply, MT4Manager.login, MT4Manager.isValid, hg, hres]
        rw [heq]
        exact ⟨hlc, hcv⟩
    · have heq : SessionEvent.apply st (SessionEvent.loginEv loginId res desc) =
          { st with last_error := "Not connected to server" } := by
        simp [SessionEvent.apply, MT4Manager.login, MT4Manager.isValid, hg]
      rw [heq]
      exact ⟨hlc, hcv⟩
  | disconnectEv =>
    by_cases hg : (st.valid && st.connected) = true
    · have heq : SessionEvent.apply st SessionEvent.disconnectEv =
          { st with connected := false, logged_in := false } := by
        simp [SessionEvent.apply, MT4Manager.disconnect, MT4Manager.isValid, hg]
      rw [heq]
      exact ⟨fun h2 => absurd h2 (by simp), fun h2 => absurd h2 (by simp)⟩
    · have heq : SessionEvent.apply st SessionEvent.disconnectEv = st := by
        simp [SessionEvent.apply, MT4Manager.disconnect, MT4Manager.isValid, hg]
      rw [heq]
      exact ⟨hlc, hcv⟩

theorem sessionInv_run (valid : Bool) (evs : List SessionEvent) :
    SessionInv (runSession valid evs) := by
  have key : ∀ (l : List SessionEvent) (st : ManagerState), SessionInv st →
      SessionInv (l.foldl SessionEvent.apply st) := by
    intro l
    induction l with
    | nil => intro st h; exact h
    | cons e l ih =>
      intro st h
      exact ih (SessionEvent.apply st e) (sessionInv_apply st e h)
  exact key evs (MT4Manager.init valid) (sessionInv_init valid)

/-- C9: a `MT4Trade` reports `isOpen` exactly when its close time is zero. -/
theorem isOpen_iff_close_time_zero (t : MT4Trade) :
    MT4Trade.isOpen t = true ↔ t.trade.close_time = 0 := by
  simp [MT4Trade.isOpen]

/-- C7: in every adapter state reachable by construction followed by any
sequence of connect, login, and disconnect events, the logged-in flag being
set implies the connected flag is set. -/
theorem runSession_logged_in_implies_connected (valid : Bool)
    (evs : List SessionEvent) (h : (runSession valid evs).logged_in = true) :
    (runSession valid evs).connected = true :=
  (sessionInv_run valid evs).1 h

theorem runSession_logged_in_implies_connected_witness :
    (runSession true
      [SessionEvent.connectEv "demo.broker:443" RET_OK "",
       SessionEvent.loginEv 12345 RET_OK ""]).connected = true :=
  runSession_logged_in_implies_connected true
    [SessionEvent.connectEv "demo.broker:443" RET_OK "",
     SessionEvent.loginEv 12345 RET_OK ""] (by decide)

/-- A concrete authenticated adapter state, used by witnesses. -/
def stAuth : ManagerState :=
  { valid := true, connected := true, logged_in := true,
    server := "demo.broker:443", login := 12345, last_error := "" }

/-- A concrete symbol configuration record, used by witnesses. -/
def csEx : ConSymbol :=
  { symbol := "EURUSD", description := "Euro vs US Dollar", currency := "USD",
    digits := 5, point := 1/100000, spread := 10, contract_size := 100000,
    tick_value := 1, tick_size := 1/100000 }

/-- A concrete live-quote record, used by witnesses. -/
def siEx : SymbolInfo := { bid := 109/100, ask := 10901/10000, lasttime := 1700000000 }

/-- C6: `isConnected` is true iff the adapter's own connected flag is set AND
the SDK poll passed to the query confirms the connection (stated for any
state where the connected flag implies a valid handle, which holds in every
reachable state); `isLoggedIn` returns the adapter's own logged-in flag
without consulting the SDK. -/
theorem isConnected_polls_sdk (st : ManagerState) (sdkIsConnected : Bool)
    (h : st.connected = true → st.valid = true) :
    (MT4Manager.isConnected st sdkIsConnected = (st.connected && sdkIsConnected)) ∧
    MT4Manager.isLoggedIn st = st.logged_in := by
  refine ⟨?_, rfl⟩
  cases hc : st.connected with
  | false => simp [MT4Manager.isConnected, hc]
  | true => simp [MT4Manager.isConnected, hc, h hc]

theorem isConnected_polls_sdk_witness :
    (MT4Manager.isConnected stAuth true = (stAuth.connected && true)) ∧
    MT4Manager.isLoggedIn stAuth = stAuth.logged_in :=
  isConnected_polls_sdk stAuth true (fun _ => rfl)

/-- C10: `closeTrade` leaves the descriptor price at zero for every price
argument that is not strictly positive (the close is submitted as a market
close), copies only a strictly positive price, and no price value causes an
argument error: in an authenticated state the descriptor is submitted for
every price. -/
theorem closeTrade_price_handling (st : ManagerState) (ticket : Int) (price : ℚ)
    (sdkTransResult : Int) (errText : Int → String)
    (hv : st.valid = true) (hl : st.logged_in = true) :
    (MT4Manager.closeTrade st ticket price sdkTransResult errText).2.1 =
      some (MT4Manager.buildCloseDescriptor ticket price) ∧
    (price ≤ 0 → (MT4Manager.buildCloseDescriptor ticket price).price = 0) ∧
    (0 < price → (MT4Manager.buildCloseDescriptor ticket price).price = price) := by
  refine ⟨?_, ?_, ?_⟩
  · unfold MT4Manager.closeTrade MT4Manager.isValid
    by_cases hres : sdkTransResult = RET_OK <;> simp [hv, hl, hres]
  · intro hp
    simp [MT4Manager.buildCloseDescriptor, not_lt.mpr hp]
  · intro hp
    simp [MT4Manager.buildCloseDescriptor, hp]

theorem closeTrade_price_handling_witness :
    (MT4Manager.closeTrade stAuth 42 (-(5 : ℚ)) RET_OK (fun _ => "e")).2.1 =
      some (MT4Manager.buildCloseDescriptor 42 (-(5 : ℚ))) ∧
    ((-(5 : ℚ)) ≤ 0 → (MT4Manager.buildCloseDescriptor 42 (-(5 : ℚ))).price = 0) ∧
    ((0 : ℚ) < -(5 : ℚ) →
      (MT4Manager.buildCloseDescriptor 42 (-(5 : ℚ))).price = -(5 : ℚ)) :=
  closeTrade_price_handling stAuth 42 (-(5 : ℚ)) RET_OK (fun _ => "e") rfl rfl

/-- C8: in an authenticated state, `getSymbol` returns not-found (`none`,
with the last error set from the SDK translator) exactly when the primary
`SymbolGet` fetch returns non-OK; when the primary fetch succeeds, the
returned instrument carries the live-quote slice (`hasCurrentInfo`) iff the
secondary `SymbolInfoGet` fetch returned OK. -/
theorem getSymbol_not_found_and_info (st : ManagerState)
    (sdkSymbolGet : Int × ConSymbol) (sdkSymbolInfoGet : Int × SymbolInfo)
    (errText : Int → String) (hv : st.valid = true) (hl : st.logged_in = true) :
    ((MT4Manager.getSymbol st sdkSymbolGet sdkSymbolInfoGet errText).2 = none ↔
      sdkSymbolGet.1 ≠ RET_OK) ∧
    (sdkSymbolGet.1 ≠ RET_OK →
      (MT4Manager.getSymbol st sdkSymbolGet sdkSymbolInfoGet errText).1.last_error =
        errText sdkSymbolGet.1) ∧
    (∀ s, (MT4Manager.getSymbol st sdkSymbolGet sdkSymbolInfoGet errText).2 = some s →
      (MT4Symbol.hasCurrentInfo s = true ↔ sdkSymbolInfoGet.1 = RET_OK)) := by
  unfold MT4Manager.getSymbol MT4Manager.isValid
  by_cases hp : sdkSymbolGet.1 = RET_OK
  · by_cases hs : sdkSymbolInfoGet.1 = RET_OK
    · simp [hv, hl, hp, hs, MT4Symbol.mkWithInfo, MT4Symbol.hasCurrentInfo]
    · simp [hv, hl, hp, hs, MT4Symbol.mkPlain, MT4Symbol.hasCurrentInfo]
  · simp [hv, hl, hp]

theorem getSymbol_not_found_and_info_witness :
    ((MT4Manager.getSymbol stAuth (5, csEx) (RET_OK, siEx) (fun _ => "no such symbol")).2
        = none ↔ (5 : Int) ≠ RET_OK) ∧
    ((5 : Int) ≠ RET_OK →
      (MT4Manager.getSymbol stAuth (5, csEx) (RET_OK, siEx)
        (fun _ => "no such symbol")).1.last_error = (fun _ => "no such symbol") (5 : Int)) ∧
    (∀ s, (MT4Manager.getSymbol stAuth (5, csEx) (RET_OK, siEx)
        (fun _ => "no such symbol")).2 = some s →
      (MT4Symbol.hasCurrentInfo s = true ↔ (RET_OK, siEx).1 = RET_OK)) :=
  getSymbol_not_found_and_info stAuth (5, csEx) (RET_OK, siEx)
    (fun _ => "no such symbol") rfl rfl

/-- C3: a query or trade operation invoked while not Authenticated (handle
invalid or not logged in) fails with the documented failure value — the empty
sequence for `getAccounts`, zero with no submitted transaction for
`openTrade` — and leaves the session fields (connected flag, logged-in flag,
server label, login) unchanged; `getAccounts` leaves the whole state intact. -/
theorem unauthenticated_ops_preserve_state (st : ManagerState)
    (sdkUsers : Option (List UserRecord)) (loginId : Int) (symbol : String)
    (cmd : Int) (volume price sl tp : ℚ) (comment : String) (sdkTransResult : Int)
    (sdkTrades : Option (List TradeRecord)) (errText : Int → String)
    (h : ¬(st.valid = true ∧ st.logged_in = true)) :
    (MT4Manager.getAccounts st sdkUsers = (st, [])) ∧
    ((MT4Manager.openTrade st loginId symbol cmd volume price sl tp comment
        sdkTransResult sdkTrades errText).2.1 = none) ∧
    ((MT4Manager.openTrade st loginId symbol cmd volume price sl tp comment
        sdkTransResult sdkTrades errText).2.2 = 0) ∧
    ((MT4Manager.openTrade st loginId symbol cmd volume price sl tp comment
        sdkTransResult sdkTrades errText).1.connected = st.connected) ∧
    ((MT4Manager.openTrade st loginId symbol cmd volume price sl tp comment
        sdkTransResult sdkTrades errText).1.logged_in = st.logged_in) ∧
    ((MT4Manager.openTrade st loginId symbol cmd volume price sl tp comment
        sdkTransResult sdkTrades errText).1.server = st.server) ∧
    ((MT4Manager.openTrade st loginId symbol cmd volume price sl tp comment
        sdkTransResult sdkTrades errText).1.login = st.login) := by
  have hg : (st.valid && st.logged_in) = false := by
    cases hv : st.valid <;> cases hl : st.logged_in <;> simp_all
  unfold MT4Manager.getAccounts MT4Manager.openTrade MT4Manager.isValid
  simp [hg]

theorem unauthenticated_ops_preserve_state_witness :
    (MT4Manager.getAccounts (MT4Manager.init true) none = (MT4Manager.init true, [])) ∧
    ((MT4Manager.openTrade (MT4Manager.init true) 12345 "EURUSD" OP_BUY 1 1 0 0 ""
        RET_OK none (fun _ => "e")).2.1 = none) ∧
    ((MT4Manager.openTrade (MT4Manager.init true) 12345 "EURUSD" OP_BUY 1 1 0 0 ""
        RET_OK none (fun _ => "e")).2.2 = 0) ∧
    ((MT4Manager.openTrade (MT4Manager.init true) 12345 "EURUSD" OP_BUY 1 1 0 0 ""
        RET_OK none (fun _ => "e")).1.connected = (MT4Manager.init true).connected) ∧
    ((MT4Manager.openTrade (MT4Manager.init true) 12345 "EURUSD" OP_BUY 1 1 0 0 ""
        RET_OK none (fun _ => "e")).1.logged_in = (MT4Manager.init true).logged_in) ∧
    ((MT4Manager.openTrade (MT4Manager.init true) 12345 "EURUSD" OP_BUY 1 1 0 0 ""
        RET_OK none (fun _ => "e")).1.server = (MT4Manager.init true).server) ∧
    ((MT4Manager.openTrade (MT4Manager.init true) 12345 "EURUSD" OP_BUY 1 1 0 0 ""
        RET_OK none (fun _ => "e")).1.login = (MT4Manager.init true).login) :=
  unauthenticated_ops_preserve_state (MT4Manager.init true) none 12345 "EURUSD"
    OP_BUY 1 1 0 0 "" RET_OK none (fun _ => "e") (by decide)

/-- A concrete trade record (ticket 9, open time 5), used in counterexamples. -/
def tradeEx : TradeRecord :=
  { order := 9, login := 12345, symbol := "EURUSD", cmd := 6, volume := 100,
    open_price := 1, close_price := 0, sl := 0, tp := 0, open_time := 5,
    close_time := 0, profit := 0, commission := 0, storage := 0, comment := "" }

/-- C2 counterexample: with `cmd = OP_BALANCE` in an authenticated state,
`openTrade` submits a transaction (the descriptor is present and carries the
balance cmd) and returns a non-zero ticket — the balance-adjustment variant
is not rejected with `InvalidArgument`, no rejection path exists. -/
theorem openTrade_balance_submitted :
    ((MT4Manager.openTrade stAuth 12345 "EURUSD" OP_BALANCE 1 1 0 0 ""
        RET_OK (some [tradeEx]) (fun _ => "e")).2.1).isSome = true ∧
    ((MT4Manager.openTrade stAuth 12345 "EURUSD" OP_BALANCE 1 1 0 0 ""
        RET_OK (some [tradeEx]) (fun _ => "e")).2.2 = 9) ∧ ((9 : Int) ≠ 0) :=
  ⟨rfl, by decide, by decide⟩

/-- C2 (amended): `openTrade` performs no validation of the order kind: for
every `cmd` — including the balance- and credit-adjustment variants — in an
authenticated state it submits a descriptor carrying that `cmd` unchanged;
the outcome is decided solely by the SDK responses. -/
theorem openTrade_no_cmd_validation (st : ManagerState) (loginId : Int)
    (symbol : String) (cmd : Int) (volume price sl tp : ℚ) (comment : String)
    (res : Int) (sdkTrades : Option (List TradeRecord)) (errText : Int → String)
    (hv : st.valid = true) (hl : st.logged_in = true) :
    ∃ d, (MT4Manager.openTrade st loginId symbol cmd volume price sl tp comment
        res sdkTrades errText).2.1 = some d ∧ d.cmd = cmd := by
  refine ⟨MT4Manager.buildOpenDescriptor loginId symbol cmd volume price sl tp comment,
    ?_, rfl⟩
  unfold MT4Manager.openTrade MT4Manager.isValid
  by_cases hres : res = RET_OK
  · cases sdkTrades <;> simp [hv, hl, hres]
  · simp [hv, hl, hres]

theorem openTrade_no_cmd_validation_witness :
    ∃ d, (MT4Manager.openTrade stAuth 12345 "EURUSD" OP_CREDIT 1 1 0 0 ""
        RET_OK (some [tradeEx]) (fun _ => "e")).2.1 = some d ∧ d.cmd = OP_CREDIT :=
  openTrade_no_cmd_validation stAuth 12345 "EURUSD" OP_CREDIT 1 1 0 0 ""
    RET_OK (some [tradeEx]) (fun _ => "e") rfl rfl

/-- C4 counterexample: on a freshly constructed, valid adapter that is not
logged in, `getAccounts` fails (empty sequence) yet `getLastError` returns
the empty string — the failed list query set no error message at all. -/
theorem getAccounts_failure_empty_error :
    (MT4Manager.getAccounts (MT4Manager.init true) none).2 = [] ∧
    MT4Manager.getLastError (MT4Manager.getAccounts (MT4Manager.init true) none).1 = "" :=
  ⟨rfl, rfl⟩

/-- C4 (amended): `getAccounts` leaves the last-error slot unchanged in every
state — whether its state guard fails, the SDK call fails (NULL buffer), or
the call succeeds — so after a failed list query `getLastError` may be empty;
adapter-originated state-violation failures, in contrast, store a fixed
non-empty message: `openTrade` and `closeTrade` without authentication,
`connect` without a valid handle, `login` without a connection. -/
theorem failed_ops_last_error (st : ManagerState) (sdkUsers : Option (List UserRecord))
    (server : String) (loginId : Int) (symbol : String) (cmd : Int)
    (volume price sl tp : ℚ) (comment : String) (res : Int)
    (sdkTrades : Option (List TradeRecord)) (errText : Int → String)
    (ticket : Int) :
    ((MT4Manager.getAccounts st sdkUsers).1.last_error = st.last_error) ∧
    (¬(st.valid = true ∧ st.logged_in = true) →
      MT4Manager.getLastError (MT4Manager.openTrade st loginId symbol cmd volume
        price sl tp comment res sdkTrades errText).1 ≠ "") ∧
    (¬(st.valid = true ∧ st.logged_in = true) →
      MT4Manager.getLastError (MT4Manager.closeTrade st ticket price res errText).1 ≠ "") ∧
    (st.valid = false →
      MT4Manager.getLastError (MT4Manager.connect st server res errText).1 ≠ "") ∧
    (¬(st.valid = true ∧ st.connected = true) →
      MT4Manager.getLastError (MT4Manager.login st loginId res errText).1 ≠ "") := by
  refine ⟨?_, ?_, ?_, ?_, ?_⟩
  · unfold MT4Manager.getAccounts MT4Manager.isValid
    cases hg : (st.valid && st.logged_in) with
    | false => simp [hg]
    | true => cases sdkUsers <;> simp [hg]
  · intro h
    have hg : (st.valid && st.logged_in) = false := by
      cases hv : st.valid <;> cases hl : st.logged_in <;> simp_all
    unfold MT4Manager.openTrade MT4Manager.isValid MT4Manager.getLastError
    simp [hg]
  · intro h
    have hg : (st.valid && st.logged_in) = false := by
      cases hv : st.valid <;> cases hl : st.logged_in <;> simp_all
    unfold MT4Manager.closeTrade MT4Manager.isValid MT4Manager.getLastError
    simp [hg]
  · intro hvf
    unfold MT4Manager.connect MT4Manager.isValid MT4Manager.getLastError
    simp [hvf]
  · intro hcf
    have hgc : (st.valid && st.connected) = false := by
      cases hv : st.valid <;> cases hc : st.connected <;> simp_all
    unfold MT4Manager.login MT4Manager.isValid MT4Manager.getLastError
    simp [hgc]

theorem failed_ops_last_error_witness :
    ((MT4Manager.getAccounts stAuth none).1.last_error = stAuth.last_error) ∧
    (¬((MT4Manager.init false).valid = true ∧ (MT4Manager.init false).logged_in = true) →
      MT4Manager.getLastError (MT4Manager.openTrade (MT4Manager.init false) 12345
        "EURUSD" OP_BUY 1 1 0 0 "" RET_OK none (fun _ => "e")).1 ≠ "") ∧
    (¬((MT4Manager.init false).valid = true ∧ (MT4Manager.init false).logged_in = true) →
      MT4Manager.getLastError (MT4Manager.closeTrade (MT4Manager.init false) 42 1
        RET_OK (fun _ => "e")).1 ≠ "") ∧
    ((MT4Manager.init false).valid = false →
      MT4Manager.getLastError (MT4Manager.connect (MT4Manager.init false)
        "demo.broker:443" RET_OK (fun _ => "e")).1 ≠ "") ∧
    (¬((MT4Manager.init false).valid = true ∧ (MT4Manager.init false).connected = true) →
      MT4Manager.getLastError (MT4Manager.login (MT4Manager.init false) 12345
        RET_OK (fun _ => "e")).1 ≠ "") :=
  ⟨(failed_ops_last_error stAuth none "demo.broker:443" 12345
      "EURUSD" OP_BUY 1 1 0 0 "" RET_OK none (fun _ => "e") 42).1,
   (failed_ops_last_error (MT4Manager.init false) none "demo.broker:443" 12345
      "EURUSD" OP_BUY 1 1 0 0 "" RET_OK none (fun _ => "e") 42).2⟩

/-- C5 counterexample: at `volume = -1/200` the code stores
`(int)(volume * 100) = 0` (the C cast truncates toward zero) while
`floor(volume * 100) = -1`; the claimed floor characterization is false, and
the submitted descriptor differs from it. -/
theorem volume_floor_counterexample :
    (MT4Manager.buildOpenDescriptor 1 "EURUSD" OP_BUY (-(1 : ℚ)/200) 1 0 0 "").volume
      = 0 ∧
    Int.floor ((-(1 : ℚ)/200) * 100) = -1 ∧ ((0 : Int) ≠ -1) := by
  refine ⟨?_, ?_, by decide⟩
  · show cIntOfRat ((-(1 : ℚ)/200) * 100) = 0
    norm_num [cIntOfRat]
  · norm_num

/-- C5 (amended): the descriptor's integer volume field equals `v * 100`
truncated toward zero — `floor (v * 100)` for non-negative `v`, and
`ceil (v * 100)` for negative `v` — and no volume value is rejected: the code
has no overflow check, so in an authenticated state the descriptor is
submitted for every `v` and no `InvalidArgument` failure exists. -/
theorem openTrade_volume_conversion (st : ManagerState) (loginId : Int)
    (symbol : String) (cmd : Int) (volume price sl tp : ℚ) (comment : String)
    (res : Int) (sdkTrades : Option (List TradeRecord)) (errText : Int → String)
    (hv : st.valid = true) (hl : st.logged_in = true) :
    ∃ d, (MT4Manager.openTrade st loginId symbol cmd volume price sl tp comment
        res sdkTrades errText).2.1 = some d ∧
      d.volume = cIntOfRat (volume * 100) ∧
      (0 ≤ volume → d.volume = Int.floor (volume * 100)) ∧
      (volume < 0 → d.volume = Int.ceil (volume * 100)) := by
  refine ⟨MT4Manager.buildOpenDescriptor loginId symbol cmd volume price sl tp comment,
    ?_, rfl, ?_, ?_⟩
  · unfold MT4Manager.openTrade MT4Manager.isValid
    by_cases hres : res = RET_OK
    · cases sdkTrades <;> simp [hv, hl, hres]
    · simp [hv, hl, hres]
  · intro hvol
    show cIntOfRat (volume * 100) = Int.floor (volume * 100)
    have : (0 : ℚ) ≤ volume * 100 := mul_nonneg hvol (by norm_num)
    simp [cIntOfRat, this]
  · intro hvol
    show cIntOfRat (volume * 100) = Int.ceil (volume * 100)
    have : ¬((0 : ℚ) ≤ volume * 100) :=
      not_le.mpr (mul_neg_of_neg_of_pos hvol (by norm_num))
    simp [cIntOfRat, this]

theorem openTrade_volume_conversion_witness :
    ∃ d, (MT4Manager.openTrade stAuth 12345 "EURUSD" OP_BUY (1/10 : ℚ) 1 0 0 ""
        RET_OK (some [tradeEx]) (fun _ => "e")).2.1 = some d ∧
      d.volume = cIntOfRat ((1/10 : ℚ) * 100) ∧
      ((0 : ℚ) ≤ (1/10 : ℚ) → d.volume = Int.floor ((1/10 : ℚ) * 100)) ∧
      ((1/10 : ℚ) < 0 → d.volume = Int.ceil ((1/10 : ℚ) * 100)) :=
  openTrade_volume_conversion stAuth 12345 "EURUSD" OP_BUY (1/10 : ℚ) 1 0 0 ""
    RET_OK (some [tradeEx]) (fun _ => "e") rfl rfl

/-- Modelled from the spec: the identification pass as the spec words it —
"select the record with the maximum open time", ties "resolved by taking the
last encountered in iteration order", "if the fetch returns empty, return
zero". Used only to exhibit the divergence from the code. -/
def specLastMaxTicket (trades : List TradeRecord) : Int :=
  match trades with
  | [] => 0
  | t :: ts =>
    (ts.foldl (fun acc u => if u.open_time ≥ acc.1 then (u.open_time, u.order) else acc)
      (t.open_time, t.order)).2

/-- First of two trades sharing the maximal open time (ticket 1). -/
def tTieFirst : TradeRecord := { tradeEx with order := 1, cmd := 0 }

/-- Second of two trades sharing the maximal open time (ticket 2). -/
def tTieSecond : TradeRecord := { tradeEx with order := 2, cmd := 0 }

/-- C1 counterexample: two fetched trades share the maximal open time; the
spec's tie-break (last encountered in iteration order) names ticket 2, but
`openTrade` — whose scan updates only on a strictly greater open time —
returns the first encountered, ticket 1. -/
theorem identification_tie_break_counterexample :
    ((MT4Manager.openTrade stAuth 12345 "EURUSD" OP_BUY 1 1 0 0 ""
        RET_OK (some [tTieFirst, tTieSecond]) (fun _ => "e")).2.2 = 1) ∧
    (specLastMaxTicket [tTieFirst, tTieSecond] = 2) ∧ ((1 : Int) ≠ 2) :=
  ⟨by decide, by decide, by decide⟩

/-- Characterization of the identification scan from an arbitrary
accumulator: either no element beats the accumulator and it is returned
unchanged, or the scan returns the first element attaining the maximum open
time among those strictly above the accumulator. -/
theorem foldl_identStep_characterization (ts : List TradeRecord) (acc : Int × Int) :
    (ts.foldl identStep acc = acc ∧ ∀ t ∈ ts, t.open_time ≤ acc.1) ∨
    (∃ i, ∃ hi : i < ts.length,
      ts.foldl identStep acc = ((ts.get ⟨i, hi⟩).open_time, (ts.get ⟨i, hi⟩).order) ∧
      acc.1 < (ts.get ⟨i, hi⟩).open_time ∧
      (∀ t ∈ ts, t.open_time ≤ (ts.get ⟨i, hi⟩).open_time) ∧
      (∀ j, ∀ hj : j < i, (ts.get ⟨j, Nat.lt_trans hj hi⟩).open_time <
        (ts.get ⟨i, hi⟩).open_time)) := by
  induction ts generalizing acc with
  | nil =>
    left
    exact ⟨rfl, by intro t ht; cases ht⟩
  | cons t ts ih =>
    have hfold : (t :: ts).foldl identStep acc = ts.foldl identStep (identStep acc t) :=
      rfl
    by_cases hstep : t.open_time > acc.1
    · have hstepEq : identStep acc t = (t.open_time, t.order) := by
        simp [identStep, hstep]
      rcases ih (t.open_time, t.order) with ⟨heq, hall⟩ | ⟨i, hi, heq, hgt, hmax, hfirst⟩
      · right
        refine ⟨0, by simp, ?_, ?_, ?_, ?_⟩
        · rw [hfold, hstepEq]
          exact heq
        · exact hstep
        · intro u hu
          rcases List.mem_cons.mp hu with hu | hu
          · subst hu; exact le_refl _
          · exact hall u hu
        · intro j hj
          exact absurd hj (Nat.not_lt_zero j)
      · right
        refine ⟨i + 1, Nat.succ_lt_succ hi, ?_, ?_, ?_, ?_⟩
        · rw [hfold, hstepEq]
          exact heq
        · exact lt_trans hstep hgt
        · intro u hu
          rcases List.mem_cons.mp hu with hu | hu
          · subst hu; exact le_of_lt hgt
          · exact hmax u hu
        · intro j hj
          cases j with
          | zero => exact hgt
          | succ k => exact hfirst k (Nat.lt_of_succ_lt_succ hj)
    · have hstepEq : identStep acc t = acc := by
        simp [identStep, hstep]
      rcases ih acc with ⟨heq, hall⟩ | ⟨i, hi, heq, hgt, hmax, hfirst⟩
      · left
        constructor
        · rw [hfold, hstepEq]
          exact heq
        · intro u hu
          rcases List.mem_cons.mp hu with hu | hu
          · subst hu; exact le_of_not_lt hstep
          · exact hall u hu
      · right
        refine ⟨i + 1, Nat.succ_lt_succ hi, ?_, ?_, ?_, ?_⟩
        · rw [hfold, hstepEq]
          exact heq
        · exact hgt
        · intro u hu
          rcases List.mem_cons.mp hu with hu | hu
          · subst hu; exact le_of_lt (lt_of_le_of_lt (le_of_not_lt hstep) hgt)
          · exact hmax u hu
        · intro j hj
          cases j with
          | zero => exact lt_of_le_of_lt (le_of_not_lt hstep) hgt
          | succ k => exact hfirst k (Nat.lt_of_succ_lt_succ hj)

/-- The identification pass started at the code's `(0, 0)` accumulator:
zero when no record has a positive open time, otherwise the ticket of the
first record attaining the maximum open time. -/
theorem findNewestTicket_cases (ts : List TradeRecord) :
    ((∀ t ∈ ts, t.open_time ≤ 0) → findNewestTicket ts = 0) ∧
    ((∃ t ∈ ts, 0 < t.open_time) →
      ∃ i, ∃ hi : i < ts.length,
        findNewestTicket ts = (ts.get ⟨i, hi⟩).order ∧
        (∀ t ∈ ts, t.open_time ≤ (ts.get ⟨i, hi⟩).open_time) ∧
        (∀ j, ∀ hj : j < i, (ts.get ⟨j, Nat.lt_trans hj hi⟩).open_time <
          (ts.get ⟨i, hi⟩).open_time)) := by
  rcases foldl_identStep_characterization ts ((0 : Int), (0 : Int)) with
    ⟨heq, hall⟩ | ⟨i, hi, heq, hgt, hmax, hfirst⟩
  · constructor
    · intro _
      unfold findNewestTicket
      rw [heq]
    · rintro ⟨t, ht, htpos⟩
      exact absurd (hall t ht) (not_le.mpr htpos)
  · constructor
    · intro hle
      exact absurd (hle _ (List.get_mem ts i hi)) (not_le.mpr hgt)
    · intro _
      refine ⟨i, hi, ?_, hmax, hfirst⟩
      unfold findNewestTicket
      rw [heq]

/-- C1 (amended): after a successful submission in an authenticated state,
the identification pass over the fetched trades returns zero when the fetch
is NULL, empty, or contains no record with positive open time; otherwise it
returns the ticket of the FIRST record, in iteration order, attaining the
maximum open time — the strict comparison in the scan keeps the first of
several records tied at the maximum, not the last. -/
theorem openTrade_identification_pass (st : ManagerState) (loginId : Int)
    (symbol : String) (cmd : Int) (volume price sl tp : ℚ) (comment : String)
    (ts : List TradeRecord) (errText : Int → String)
    (hv : st.valid = true) (hl : st.logged_in = true) :
    ((MT4Manager.openTrade st loginId symbol cmd volume price sl tp comment
        RET_OK none errText).2.2 = 0) ∧
    ((∀ t ∈ ts, t.open_time ≤ 0) →
      (MT4Manager.openTrade st loginId symbol cmd volume price sl tp comment
        RET_OK (some ts) errText).2.2 = 0) ∧
    ((∃ t ∈ ts, 0 < t.open_time) →
      ∃ i, ∃ hi : i < ts.length,
        (MT4Manager.openTrade st loginId symbol cmd volume price sl tp comment
          RET_OK (some ts) errText).2.2 = (ts.get ⟨i, hi⟩).order ∧
        (∀ t ∈ ts, t.open_time ≤ (ts.get ⟨i, hi⟩).open_time) ∧
        (∀ j, ∀ hj : j < i, (ts.get ⟨j, Nat.lt_trans hj hi⟩).open_time <
          (ts.get ⟨i, hi⟩).open_time)) := by
  have hsome : (MT4Manager.openTrade st loginId symbol cmd volume price sl tp comment
      RET_OK (some ts) errText).2.2 = findNewestTicket ts := by
    unfold MT4Manager.openTrade MT4Manager.isValid
    simp [hv, hl]
  have hnone : (MT4Manager.openTrade st loginId symbol cmd volume price sl tp comment
      RET_OK none errText).2.2 = 0 := by
    unfold MT4Manager.openTrade MT4Manager.isValid
    simp [hv, hl]
  refine ⟨hnone, ?_, ?_⟩
  · intro hle
    rw [hsome]
    exact (findNewestTicket_cases ts).1 hle
  · intro hex
    obtain ⟨i, hi, hticket, hmax, hfirst⟩ := (findNewestTicket_cases ts).2 hex
    refine ⟨i, hi, ?_, hmax, hfirst⟩
    rw [hsome]
    exact hticket

theorem openTrade_identification_pass_witness :
    ((MT4Manager.openTrade stAuth 12345 "EURUSD" OP_BUY 1 1 0 0 ""
        RET_OK none (fun _ => "e")).2.2 = 0) ∧
    ((∀ t ∈ [tTieFirst, tTieSecond], t.open_time ≤ 0) →
      (MT4Manager.openTrade stAuth 12345 "EURUSD" OP_BUY 1 1 0 0 ""
        RET_OK (some [tTieFirst, tTieSecond]) (fun _ => "e")).2.2 = 0) ∧
    ((∃ t ∈ [tTieFirst, tTieSecond], 0 < t.open_time) →
      ∃ i, ∃ hi : i < ([tTieFirst, tTieSecond] : List TradeRecord).length,
        (MT4Manager.openTrade stAuth 12345 "EURUSD" OP_BUY 1 1 0 0 ""
          RET_OK (some [tTieFirst, tTieSecond]) (fun _ => "e")).2.2 =
            (([tTieFirst, tTieSecond] : List TradeRecord).get ⟨i, hi⟩).order ∧
        (∀ t ∈ [tTieFirst, tTieSecond], t.open_time ≤
          (([tTieFirst, tTieSecond] : List TradeRecord).get ⟨i, hi⟩).open_time) ∧
        (∀ j, ∀ hj : j < i, (([tTieFirst, tTieSecond] : List TradeRecord).get
            ⟨j, Nat.lt_trans hj hi⟩).open_time <
          (([tTieFirst, tTieSecond] : List TradeRecord).get ⟨i, hi⟩).open_time)) :=
  openTrade_identification_pass stAuth 12345 "EURUSD" OP_BUY 1 1 0 0 ""
    [tTieFirst, tTieSecond] (fun _ => "e") rfl rfl
